import Mathlib

/-!
Verification development for `carbon_model.py` (AIPoweredCarbonFootprintCalculator).

The Python source is shallowly embedded below.  Pandas/sklearn library calls
are modelled by their documented behaviour at the call sites the program uses:
* `DataFrame.drop(col)` raises `KeyError` when the column is absent;
* `select_dtypes` filters columns by declared dtype;
* `OneHotEncoder(handle_unknown='ignore')` stores the sorted distinct values
  of each categorical column at fit time and one-hot encodes at transform
  time, emitting an all-zero indicator row for an unseen value;
* `r2_score` returns `1 - ss_res/ss_tot`, and for a constant `y_true`
  (`ss_tot = 0`) returns `1.0` when the predictions are perfect and `0.0`
  otherwise (it never raises);
* `DataFrame` construction from two columns raises `ValueError` when the
  column lengths differ;
* `sort_values(by, ascending=False)` computes a stable ascending argsort of
  the key column and reverses the resulting permutation;
* sklearn `Pipeline.fit` fits its steps in place: the step objects are NOT
  cloned, so a step object shared between two pipelines is refit (mutated)
  by each pipeline's `fit`.

Numeric cell values and metrics are exact rationals (the program's float
arithmetic carries no claim about rounding).  The internal regression
function of the two tree-ensemble estimators is external library code; a
fitted estimator is modelled as the deterministic capture of its fixed seed
and its training data, and its prediction function as a deterministic
function of that state, which is the only property the claims rely on.
-/

/-- Kinds of exception that can propagate out of the modelled fragment.
The first two are the exceptions the underlying libraries actually raise at
the modelled call sites; the remaining four are the error classes named by
the specification's taxonomy (no Python class of these names exists in the
source, but the type must be able to talk about them to state the claims). -/
inductive PyError where
  | keyError
  | valueError
  | schemaError
  | undefinedMetricError
  | emptyCandidateSetError
  | featureNameMismatchError
deriving DecidableEq, Repr

/-- Pandas dtypes relevant to `select_dtypes` at lines 33-34, plus dtypes a
column can carry that match neither selection list. -/
inductive Dtype where
  | int64
  | float64
  | object
  | category
  | boolean
  | datetime64
deriving DecidableEq, Repr

/-- A cell value: a numeric value, a string (categorical) value, or missing. -/
inductive Val where
  | num (q : ℚ)
  | str (s : String)
  | na
deriving DecidableEq, Repr

/-- A dataframe column: name, declared dtype, and the cell values. -/
structure Col where
  name : String
  dtype : Dtype
  values : List Val
deriving DecidableEq, Repr

/-- A pandas DataFrame, column-oriented. -/
abbrev DF := List Col

/-- `X.select_dtypes(include=ds).columns.tolist()` (lines 33-34). -/
def selectDtypes (ds : List Dtype) (X : DF) : List String :=
  (X.filter (fun c => ds.contains c.dtype)).map Col.name

/-- The target column name (line 29). -/
def targetCol : String := "CarbonEmission"

/-- Fitted state of the single `ColumnTransformer` object built at lines
37-41.  `fittedCats` / `fittedNum` are the parameters `fit` stores (observed
categories per categorical column; mean and variance per numeric column).
`fitCount` and `fittedBy` instrument the object with its mutation history:
how many times `fit` has written it and which candidate's fit wrote last. -/
structure CTState where
  fitCount : ℕ
  fittedBy : Option String
  fittedCats : Option (List (String × List String))
  fittedNum : Option (List (String × ℚ × ℚ))
deriving DecidableEq, Repr

/-- A freshly constructed, unfitted `ColumnTransformer`. -/
def initCT : CTState := ⟨0, none, none, none⟩

/-- Result of `preprocess_data` (line 43): features `X`, target `y`, a
reference into the store of ColumnTransformer objects (exactly one object is
allocated per run), and the two column-name lists. -/
structure PreprocessOut where
  X : DF
  y : List Val
  ctRef : ℕ
  categorical_cols : List String
  numerical_cols : List String
  store : List CTState
deriving DecidableEq, Repr

/-- `preprocess_data` (lines 23-43).  `df.drop('CarbonEmission', axis=1)`
raises `KeyError` when the column is absent; otherwise the features are the
remaining columns, routed into categorical (`object`/`category` dtype) and
numerical (`int64`/`float64` dtype) name lists, and one unfitted
`ColumnTransformer` is constructed. -/
def preprocess_data (df : DF) : Except PyError PreprocessOut :=
  if df.any (fun c => c.name == targetCol) then
    let X := df.filter (fun c => c.name != targetCol)
    let y := (((df.find? (fun c => c.name == targetCol)).map Col.values).getD [])
    let categorical_cols := selectDtypes [.object, .category] X
    let numerical_cols := selectDtypes [.int64, .float64] X
    .ok ⟨X, y, 0, categorical_cols, numerical_cols, [initCT]⟩
  else
    .error .keyError

/-- String contents of a cell as the encoder sees it. -/
def valStr : Val → String
  | .str s => s
  | .num q => toString q
  | .na => "nan"

/-- Numeric contents of a cell (missing values as 0; the program's target
column and numeric feature values are numeric). -/
def valQ : Val → ℚ
  | .num q => q
  | _ => 0

/-- The values of the column named `n` in `X` (empty when absent). -/
def colValues (X : DF) (n : String) : List Val :=
  (((X.find? (fun c => c.name == n)).map Col.values).getD [])

/-- `OneHotEncoder.fit` on one column: the sorted distinct observed values
(sklearn stores `np.unique` of the column). -/
def oheCategories (vals : List Val) : List String :=
  ((vals.map valStr).dedup).mergeSort (fun a b => decide (a ≤ b))

/-- `OneHotEncoder(handle_unknown='ignore')` transform of one cell against
the fitted category list of its column (line 40): one indicator per fitted
category; a value absent from the fitted categories yields all zeros and
raises nothing. -/
def oheTransformValue (cats : List String) (v : String) : List ℚ :=
  cats.map (fun c => if c = v then 1 else 0)

/-- Mean of a list of rationals (0 for the empty list, as a convention). -/
def listMean (l : List ℚ) : ℚ := l.sum / l.length

/-- Population variance of a list of rationals. -/
def listVar (l : List ℚ) : ℚ := listMean (l.map (fun x => (x - listMean l) ^ 2))

/-- `ColumnTransformer.fit` (as invoked by `Pipeline.fit`, line 74): store
the per-column encoder categories and per-column scaler mean/variance,
overwriting any previous fitted state of the same object; the instrumentation
fields record the write. -/
def fitCT (Xtr : DF) (cats nums : List String) (writer : String) (st : CTState) : CTState :=
  { fitCount := st.fitCount + 1
    fittedBy := some writer
    fittedCats := some (cats.map (fun c => (c, oheCategories (colValues Xtr c))))
    fittedNum := some (nums.map (fun c =>
      (c, listMean ((colValues Xtr c).map valQ), listVar ((colValues Xtr c).map valQ)))) }

/-- Standardized value of one numeric cell.  `StandardScaler` divides the
centered value by the standard deviation, an irrational real in general; the
embedding keeps the centering exactly and divides by the variance when it is
nonzero as a rational stand-in for that external real-arithmetic step (no
claim in scope depends on the scaled magnitudes). -/
def scaleVal (meanVar : ℚ × ℚ) (x : ℚ) : ℚ :=
  if meanVar.2 = 0 then x - meanVar.1 else (x - meanVar.1) / meanVar.2

/-- `ColumnTransformer.transform`: row-major matrix, numeric branch columns
first (scaled), then for each categorical column its indicator block. -/
def transformCT (st : CTState) (cats nums : List String) (X : DF) (nrows : ℕ) :
    List (List ℚ) :=
  let numParams := st.fittedNum.getD []
  let catParams := st.fittedCats.getD []
  (List.range nrows).map (fun i =>
    (nums.map (fun c =>
      scaleVal (((numParams.find? (fun p => p.1 == c)).map Prod.snd).getD (0, 0))
        (valQ (((colValues X c).get? i).getD .na))))
    ++ (cats.flatMap (fun c =>
      oheTransformValue (((catParams.find? (fun p => p.1 == c)).map Prod.snd).getD [])
        (valStr (((colValues X c).get? i).getD .na)))))

/-- One step of a linear congruential generator (the concrete pseudo-random
stream of numpy's seeded generator is external library code; the essential
property, that it is a pure function of the seed, is preserved). -/
def lcg (s : ℕ) : ℕ := (1103515245 * s + 12345) % 2 ^ 31

/-- Fuel-indexed Fisher-Yates selection: repeatedly extract the element at a
generator-chosen index. -/
def shuffleGo : ℕ → List ℕ → ℕ → List ℕ
  | 0, xs, _ => xs
  | _ + 1, [], _ => []
  | fuel + 1, xs, s =>
    let i := s % xs.length
    ((xs.get? i).getD 0) :: shuffleGo fuel (xs.eraseIdx i) (lcg s)

/-- The permutation of `0..n-1` produced by the seeded shuffle. -/
def shuffledIndices (n seed : ℕ) : List ℕ :=
  shuffleGo n (List.range n) (lcg seed)

/-- Rows of `X` at the given indices, in that order. -/
def takeRows (X : DF) (idx : List ℕ) : DF :=
  X.map (fun c => { c with values := idx.filterMap (fun i => c.values.get? i) })

/-- Entries of a value list at the given indices, in that order. -/
def takeVals (v : List Val) (idx : List ℕ) : List Val :=
  idx.filterMap (fun i => v.get? i)

/-- `train_test_split(X, y, test_size=0.2, random_state=42)` (line 48):
shuffle the row indices with the fixed seed, take `ceil(0.2 * n)` of them as
the test set and the rest as the training set. -/
def train_test_split (X : DF) (y : List Val) (seed : ℕ) :
    DF × DF × List Val × List Val :=
  let n := y.length
  let nTest := (n + 4) / 5
  let perm := shuffledIndices n seed
  let testIdx := perm.take nTest
  let trainIdx := perm.drop nTest
  (takeRows X trainIdx, takeRows X testIdx, takeVals y trainIdx, takeVals y testIdx)

/-- Residual sum of squares. -/
def ssRes (ytrue ypred : List ℚ) : ℚ :=
  (List.zipWith (fun a b => (a - b) ^ 2) ytrue ypred).sum

/-- Total sum of squares about the mean of `ytrue`. -/
def ssTot (ytrue : List ℚ) : ℚ :=
  (ytrue.map (fun a => (a - listMean ytrue) ^ 2)).sum

/-- sklearn `r2_score` (line 80): `1 - ss_res / ss_tot`; when `y_true` is
constant (`ss_tot = 0`) the score is forced finite: `1.0` for a perfect
prediction, `0.0` otherwise.  It never raises. -/
def r2_score (ytrue ypred : List ℚ) : ℚ :=
  if ssTot ytrue = 0 then (if ssRes ytrue ypred = 0 then 1 else 0)
  else 1 - ssRes ytrue ypred / ssTot ytrue

/-- `mean_absolute_error` (line 78). -/
def mean_absolute_error (ytrue ypred : List ℚ) : ℚ :=
  listMean (List.zipWith (fun a b => |a - b|) ytrue ypred)

/-- `mean_squared_error` (line 79).  The program reports
`rmse = sqrt(mse)`, a presentational real-valued function of `mse`. -/
def mean_squared_error (ytrue ypred : List ℚ) : ℚ :=
  listMean (List.zipWith (fun a b => (a - b) ^ 2) ytrue ypred)

/-- The metric triple computed per candidate (lines 78-80). -/
structure Metrics where
  mae : ℚ
  mse : ℚ
  r2 : ℚ
deriving DecidableEq, Repr

/-- The metric computation of the loop body (lines 75-80): a pure evaluation
of predictions against the held-out target.  Its result type admits an error
so that the specification's claimed `UndefinedMetricError` is statable, but
no branch produces one: `r2_score` is total. -/
def evaluateMetrics (ytest ypred : List ℚ) : Except PyError Metrics :=
  .ok ⟨mean_absolute_error ytest ypred, mean_squared_error ytest ypred,
    r2_score ytest ypred⟩

/-- One iteration of the best-model update (lines 96-98): strictly greater
R² replaces the current best; `none` models the initial
`best_score = -float('inf')`, which every rational R² strictly exceeds. -/
def stepBest (best : Option (String × ℚ)) (p : String × ℚ) : Option (String × ℚ) :=
  match best with
  | none => some p
  | some b => if p.2 > b.2 then some p else some b

/-- The selection performed by the loop of lines 73-98, abstracted over the
association list of per-candidate R² scores in iteration order (Python dicts
iterate in insertion order, which is the declared candidate order). -/
def selectBest (l : List (String × ℚ)) : Option (String × ℚ) :=
  l.foldl stepBest none

/-- The two estimator kinds instantiated at lines 54 and 60. -/
inductive Algo where
  | randomForest
  | gradientBoosting
deriving DecidableEq, Repr

/-- An unfitted pipeline (lines 51-61): a reference to its preprocessor
step object, the estimator kind and its fixed `random_state`.  Both
pipelines are built around the one `preprocessor` argument, so both carry
the same reference. -/
structure PipelineSpec where
  ctRef : ℕ
  algo : Algo
  seed : ℕ
deriving DecidableEq, Repr

/-- A pipeline after `fit` (line 74).  The imputer step (median strategy,
applied after the transform) stores the per-column medians of the
transformed training matrix; the estimator step is external library code,
modelled as the deterministic capture of its seed and training data. -/
structure FittedPipeline where
  ctRef : ℕ
  algo : Algo
  seed : ℕ
  imputerMedians : List ℚ
  trainMatrix : List (List ℚ)
  trainTargets : List ℚ
deriving DecidableEq, Repr

/-- Median of a list of rationals: middle of the sorted list (mean of the
two middles for even length), 0 for the empty list. -/
def listMedian (l : List ℚ) : ℚ :=
  let s := l.mergeSort (fun a b => decide (a ≤ b))
  if s.length = 0 then 0
  else if s.length % 2 = 1 then (s.get? (s.length / 2)).getD 0
  else (((s.get? (s.length / 2 - 1)).getD 0) + ((s.get? (s.length / 2)).getD 0)) / 2

/-- Per-column medians of a row-major matrix (the imputer's fitted state). -/
def columnMedians (m : List (List ℚ)) : List ℚ :=
  match m with
  | [] => []
  | r :: _ => (List.range r.length).map (fun j =>
      listMedian (m.filterMap (fun row => row.get? j)))

/-- `pipeline.fit(X_train, y_train)` (line 74): refit the referenced
`ColumnTransformer` object in place in the store, transform the training
rows with the freshly fitted state, fit the imputer and the estimator.
Returns the updated store and the fitted pipeline. -/
def fitPipeline (spec : PipelineSpec) (name : String) (cats nums : List String)
    (Xtr : DF) (ytr : List Val) (store : List CTState) :
    List CTState × FittedPipeline :=
  let ct := fitCT Xtr cats nums name ((store.get? spec.ctRef).getD initCT)
  let store2 := store.set spec.ctRef ct
  let M := transformCT ct cats nums Xtr ytr.length
  (store2, ⟨spec.ctRef, spec.algo, spec.seed, columnMedians M, M, ytr.map valQ⟩)

/-- `pipeline.predict(X_test)` (line 75): transform the rows with the
CURRENT state of the referenced preprocessor object, then apply the
estimator's prediction function — external library code, modelled as a
deterministic function of the fitted state (each row is sent to the mean of
the captured training targets). -/
def predictPipeline (fp : FittedPipeline) (store : List CTState)
    (cats nums : List String) (X : DF) (nrows : ℕ) : List ℚ :=
  let M := transformCT ((store.get? fp.ctRef).getD initCT) cats nums X nrows
  M.map (fun _ => listMean fp.trainTargets)

/-- The candidate list of lines 64-67, in declared order.  Both pipelines
are built around the SAME preprocessor object: the one `preprocessor`
argument of `train_model`, referenced by `ctRef`. -/
def candidateSpecs (ctRef : ℕ) : List (String × PipelineSpec) :=
  [("Random Forest", ⟨ctRef, .randomForest, 42⟩),
   ("Gradient Boosting", ⟨ctRef, .gradientBoosting, 42⟩)]

/-- State threaded by the training loop of lines 69-98. -/
structure TrainLoopState where
  store : List CTState
  results : List (String × Metrics × FittedPipeline)
  best : Option (String × ℚ)
deriving Repr

/-- One iteration of the loop over `models.items()` (lines 73-98): fit the
pipeline (mutating the shared preprocessor object), predict on the held-out
rows, compute the metric triple, record the result, update the best. -/
def trainStep (cats nums : List String) (Xtr Xte : DF) (ytr yte : List Val)
    (st : TrainLoopState) (cand : String × PipelineSpec) : TrainLoopState :=
  let fitted := fitPipeline cand.2 cand.1 cats nums Xtr ytr st.store
  let ypred := predictPipeline fitted.2 fitted.1 cats nums Xte yte.length
  let m : Metrics := ⟨mean_absolute_error (yte.map valQ) ypred,
    mean_squared_error (yte.map valQ) ypred,
    r2_score (yte.map valQ) ypred⟩
  { store := fitted.1
    results := st.results ++ [(cand.1, m, fitted.2)]
    best := stepBest st.best (cand.1, m.r2) }

/-- Result of `train_model` (line 100). -/
structure TrainOut where
  best : Option (String × ℚ)
  Xtest : DF
  ytest : List Val
  results : List (String × Metrics × FittedPipeline)
  store : List CTState
deriving Repr

/-- `train_model` (lines 45-100): split once with the fixed seed, then run
the candidate loop in declared order, threading the shared preprocessor
store. -/
def train_model (X : DF) (y : List Val) (ctRef : ℕ) (cats nums : List String)
    (store : List CTState) : TrainOut :=
  let split := train_test_split X y 42
  let final := (candidateSpecs ctRef).foldl
    (trainStep cats nums split.1 split.2.1 split.2.2.1 split.2.2.2)
    ⟨store, [], none⟩
  ⟨final.best, split.2.1, split.2.2.2, final.results, final.store⟩

/-- The full deterministic pipeline run on one input table: preprocessing
followed by training and evaluation (`main`, lines 154-160). -/
def runTraining (df : DF) : Except PyError TrainOut :=
  match preprocess_data df with
  | .error e => .error e
  | .ok p => .ok (train_model p.X p.y p.ctRef p.categorical_cols p.numerical_cols p.store)

/-- `ohe.get_feature_names_out(categorical_cols)` (line 109): for each
categorical column, one name per fitted category, formatted
`<column>_<category>`, in the encoder's output order. -/
def getFeatureNamesOut (fittedCats : List (String × List String))
    (cats : List String) : List String :=
  cats.flatMap (fun c =>
    ((((fittedCats.find? (fun p => p.1 == c)).map Prod.snd).getD []).map
      (fun v => c ++ "_" ++ v)))

/-- `importance_df.sort_values('importance', ascending=False)`
(line 123): pandas argsorts the key column ascending with the default
`kind='quicksort'` (numpy introsort) and then reverses the permutation.
Pandas guarantees only the key order and the row multiset; the relative
order of equal keys is unspecified for the default kind (only
`mergesort`/`stable` are documented stable).  The executable stand-in here
performs a stable ascending sort and reverses, which coincides with the
program exactly on frames below numpy introsort's 16-element
insertion-sort threshold (insertion sort is stable); for larger frames
only the key order and the multiset of this stand-in are properties of the
program, and no theorem below asserts more than that outside the small
regime. -/
def sortValuesDesc (rows : List (String × ℚ)) : List (String × ℚ) :=
  (rows.mergeSort (fun a b => decide (a.2 ≤ b.2))).reverse

/-- `feature_importance_analysis` (lines 102-136), data part (plotting and
printing are external).  `importances` is `None` when the estimator lacks
`feature_importances_` (the `hasattr` check at line 105 fails): the analysis
is reported unavailable.  Otherwise the reconstructed names are paired with
the vector by `pd.DataFrame` construction, which raises `ValueError` when
the lengths differ, and the table is sorted by importance descending. -/
def feature_importance_analysis (ct : CTState) (cats nums : List String)
    (importances : Option (List ℚ)) :
    Except PyError (Option (List (String × ℚ))) :=
  match importances with
  | none => .ok none
  | some imps =>
    let cat_features := getFeatureNamesOut (ct.fittedCats.getD []) cats
    let feature_names := nums ++ cat_features
    if feature_names.length = imps.length then
      .ok (some (sortValuesDesc (feature_names.zip imps)))
    else
      .error .valueError

/-- Decidable equality for `Except`, needed to settle concrete runs of the
fallible operations by `decide`. -/
instance exceptDecEq {ε α : Type} [DecidableEq ε] [DecidableEq α] :
    DecidableEq (Except ε α) := fun a b =>
  match a, b with
  | .error e, .error f =>
    match decEq e f with
    | isTrue h => isTrue (by rw [h])
    | isFalse h => isFalse (by intro hh; injection hh; exact h ‹_›)
  | .ok x, .ok y =>
    match decEq x y with
    | isTrue h => isTrue (by rw [h])
    | isFalse h => isFalse (by intro hh; injection hh; exact h ‹_›)
  | .error _, .ok _ => isFalse (by intro hh; exact Except.noConfusion hh)
  | .ok _, .error _ => isFalse (by intro hh; exact Except.noConfusion hh)

/-- A table whose only column is the target: zero feature columns. -/
def dfOnlyTarget : DF := [⟨"CarbonEmission", .float64, []⟩]

/-- A table with a boolean-dtype feature column alongside the target. -/
def dfBoolCol : DF := [⟨"flag", .boolean, [.na]⟩, ⟨"CarbonEmission", .float64, [.num 1]⟩]

/-- A table with one feature column but no `CarbonEmission` column. -/
def dfNoTarget : DF := [⟨"A", .float64, [.num 1]⟩]

/-- C7 (counterexample): on a table lacking the target column,
`preprocess_data` fails with the `KeyError` that `DataFrame.drop` raises,
not with a `SchemaError` — no exception class of that name exists in the
program. -/
theorem preprocess_data_missing_target_cex :
    preprocess_data dfNoTarget = .error .keyError ∧
    preprocess_data dfNoTarget ≠ .error .schemaError := by
  constructor <;> decide

/-- C7 (amended): for every input table in which no column is named
`CarbonEmission`, `preprocess_data` fails with `KeyError` (raised by
`df.drop('CarbonEmission', axis=1)` at line 29). -/
theorem preprocess_data_missing_target (df : DF)
    (h : ∀ c ∈ df, c.name ≠ targetCol) :
    preprocess_data df = .error .keyError := by
  unfold preprocess_data
  rw [if_neg]
  simp only [List.any_eq_true, beq_iff_eq, not_exists, not_and]
  exact fun c hc => h c hc

/-- Witness for the amended C7 theorem at the concrete table `dfNoTarget`. -/
theorem preprocess_data_missing_target_witness :
    preprocess_data dfNoTarget = Except.error PyError.keyError :=
  preprocess_data_missing_target dfNoTarget (by decide)

/-- C3 (counterexample): the column routing is not a partition of all
feature columns.  On a table with a boolean-dtype feature column, the column
survives into `X` but lands in neither the categorical nor the numerical
routing list: it is silently dropped from the preprocessing plan. -/
theorem preprocess_data_routing_cex :
    ∃ p, preprocess_data dfBoolCol = .ok p ∧
      "flag" ∈ p.X.map Col.name ∧
      "flag" ∉ p.categorical_cols ∧
      "flag" ∉ p.numerical_cols := by
  refine ⟨_, rfl, ?_, ?_, ?_⟩ <;> decide

/-- C3 (amended): the routing performed by `preprocess_data` places a
feature column in the categorical list exactly when its dtype is
`object`/`category` and in the numerical list exactly when its dtype is
`int64`/`float64`; the two dtype classes are mutually exclusive, so no
column is routed to both — but a column of any other dtype (boolean,
datetime) appears in neither list. -/
theorem preprocess_data_routing (df : DF) (p : PreprocessOut)
    (h : preprocess_data df = .ok p) :
    p.categorical_cols =
      (p.X.filter (fun c => decide (c.dtype = .object ∨ c.dtype = .category))).map Col.name ∧
    p.numerical_cols =
      (p.X.filter (fun c => decide (c.dtype = .int64 ∨ c.dtype = .float64))).map Col.name ∧
    ∀ c ∈ p.X,
      ¬((c.dtype = .object ∨ c.dtype = .category) ∧ (c.dtype = .int64 ∨ c.dtype = .float64)) := by
  unfold preprocess_data at h
  split at h
  · injection h with h
    subst h
    refine ⟨?_, ?_, ?_⟩
    · show selectDtypes [.object, .category] _ = _
      unfold selectDtypes
      congr 1
      apply List.filter_congr
      intro c _
      cases c.dtype <;> rfl
    · show selectDtypes [.int64, .float64] _ = _
      unfold selectDtypes
      congr 1
      apply List.filter_congr
      intro c _
      cases c.dtype <;> rfl
    · intro c _ hc
      rcases hc with ⟨h1 | h1, h2 | h2⟩ <;> rw [h1] at h2 <;> cases h2
  · cases h

/-- Witness for the amended C3 theorem at the concrete table `dfBoolCol`. -/
theorem preprocess_data_routing_witness :
    (([] : List String) =
      (([⟨"flag", Dtype.boolean, [Val.na]⟩] : DF).filter
        (fun c => decide (c.dtype = .object ∨ c.dtype = .category))).map Col.name ∧
    ([] : List String) =
      (([⟨"flag", Dtype.boolean, [Val.na]⟩] : DF).filter
        (fun c => decide (c.dtype = .int64 ∨ c.dtype = .float64))).map Col.name ∧
    ∀ c ∈ ([⟨"flag", Dtype.boolean, [Val.na]⟩] : DF),
      ¬((c.dtype = .object ∨ c.dtype = .category) ∧ (c.dtype = .int64 ∨ c.dtype = .float64))) :=
  preprocess_data_routing dfBoolCol
    ⟨[⟨"flag", .boolean, [.na]⟩], [.num 1], 0, [], [], [initCT]⟩ (by decide)

/-- The total sum of squares of a constant list is zero (the degenerate
`0/0` case of R²). -/
lemma ssTot_of_const (l : List ℚ) (c : ℚ) (h : ∀ a ∈ l, a = c) : ssTot l = 0 := by
  obtain ⟨n, rfl⟩ : ∃ n, l = List.replicate n c := ⟨l.length, List.eq_replicate_of_mem h⟩
  rcases Nat.eq_zero_or_pos n with hn | hn
  · subst hn; simp [ssTot]
  · have hmean : listMean (List.replicate n c) = c := by
      unfold listMean
      rw [List.sum_replicate, List.length_replicate, nsmul_eq_mul]
      have hne : (n : ℚ) ≠ 0 := Nat.cast_ne_zero.mpr hn.ne'
      field_simp
    unfold ssTot
    rw [hmean]
    simp [List.map_replicate, List.sum_replicate]

/-- C2 (counterexample): on a constant held-out target (`y_test = [5, 5]`)
with imperfect predictions, the evaluation completes normally and returns
R² = 0 — exactly the "zero R²" the specification says must never be
produced — and raises no `UndefinedMetricError` (no such class exists in
the program). -/
theorem evaluateMetrics_constant_target_cex :
    evaluateMetrics [5, 5] [3, 4] = .ok ⟨3/2, 5/2, 0⟩ ∧
    evaluateMetrics [5, 5] [3, 4] ≠ .error .undefinedMetricError := by
  constructor
  · unfold evaluateMetrics mean_absolute_error mean_squared_error r2_score ssTot ssRes listMean
    norm_num
  · simp [evaluateMetrics]

/-- C2 (amended): for every evaluation whose held-out target is constant,
the metric computation does NOT raise: sklearn's `r2_score` forces the
undefined `0/0` score to a finite value — `1` when the residuals are all
zero and `0` otherwise — and the evaluation returns it silently. -/
theorem evaluateMetrics_constant_target (ytest ypred : List ℚ) (c : ℚ)
    (h : ∀ a ∈ ytest, a = c) :
    evaluateMetrics ytest ypred =
      .ok ⟨mean_absolute_error ytest ypred, mean_squared_error ytest ypred,
        if ssRes ytest ypred = 0 then 1 else 0⟩ := by
  unfold evaluateMetrics r2_score
  rw [if_pos (ssTot_of_const ytest c h)]

/-- Witness for the amended C2 theorem at `y_test = [5, 5]`,
predictions `[3, 4]`. -/
theorem evaluateMetrics_constant_target_witness :
    evaluateMetrics [5, 5] [3, 4] =
      .ok ⟨mean_absolute_error [5, 5] [3, 4], mean_squared_error [5, 5] [3, 4],
        if ssRes [5, 5] [3, 4] = 0 then 1 else 0⟩ :=
  evaluateMetrics_constant_target [5, 5] [3, 4] 5 (by decide)

/-- C8: for every fitted category list and every value not observed during
fitting, the encoder's indicator vector for that value is all zeros — the
transform is total (`handle_unknown='ignore'`), so prediction does not
raise. -/
theorem oheTransformValue_unseen (cats : List String) (v : String)
    (h : v ∉ cats) :
    oheTransformValue cats v = List.replicate cats.length 0 := by
  unfold oheTransformValue
  have hmap : ∀ c ∈ cats, (if c = v then (1 : ℚ) else 0) = Function.const String (0 : ℚ) c := by
    intro c hc
    have hne : c ≠ v := fun hcv => h (hcv ▸ hc)
    simp [Function.const, hne]
  rw [List.map_congr_left hmap, List.map_const]

/-- Witness for the C8 theorem: the value `"blue"` was not observed at fit
time, and its indicator vector is `[0, 0]`. -/
theorem oheTransformValue_unseen_witness :
    oheTransformValue ["red", "green"] "blue" =
      List.replicate (["red", "green"] : List String).length 0 :=
  oheTransformValue_unseen ["red", "green"] "blue" (by decide)

/-- A synthetic encoder state whose reconstructed name list has length 1
(one categorical column with one fitted category, no numeric columns). -/
def ctMismatch : CTState := ⟨1, some "Random Forest", some [("c", ["x"])], some []⟩

/-- C6 (counterexample): with a deliberately mismatched synthetic encoder
(one reconstructed name against a 3-entry importance vector), the Explainer
raises the `ValueError` of `pd.DataFrame` construction, not a
`FeatureNameMismatchError` — no exception class of that name exists in the
program. -/
theorem feature_importance_analysis_mismatch_cex :
    feature_importance_analysis ctMismatch ["c"] [] (some [1, 2, 3]) = .error .valueError ∧
    feature_importance_analysis ctMismatch ["c"] [] (some [1, 2, 3]) ≠ .error .featureNameMismatchError := by
  constructor <;> decide

/-- C6 (amended): whenever the reconstructed post-expansion feature-name
list and the importance vector differ in length, the Explainer raises — the
`ValueError` from constructing the two-column `DataFrame` — rather than
silently truncating or mislabeling; and when the lengths match, the names
are paired 1:1 (positionally zipped) with the importance vector. -/
theorem feature_importance_analysis_length_mismatch (ct : CTState)
    (cats nums : List String) (imps : List ℚ)
    (h : (nums ++ getFeatureNamesOut (ct.fittedCats.getD []) cats).length ≠ imps.length) :
    feature_importance_analysis ct cats nums (some imps) = .error .valueError := by
  rw [List.length_append] at h
  simp [feature_importance_analysis, h]

/-- Witness for the amended C6 theorem at the concrete mismatched input. -/
theorem feature_importance_analysis_length_mismatch_witness :
    feature_importance_analysis ctMismatch ["c"] [] (some [1, 2, 3]) =
      Except.error PyError.valueError :=
  feature_importance_analysis_length_mismatch ctMismatch ["c"] [] [1, 2, 3] (by decide)

/-- Transitivity of the Boolean importance comparison used by the sort. -/
lemma leSnd_trans : ∀ a b c : String × ℚ,
    decide (a.2 ≤ b.2) = true → decide (b.2 ≤ c.2) = true →
    decide (a.2 ≤ c.2) = true := by
  intro a b c hab hbc
  simp only [decide_eq_true_eq] at *
  exact le_trans hab hbc

/-- Totality of the Boolean importance comparison used by the sort. -/
lemma leSnd_total : ∀ a b : String × ℚ,
    (decide (a.2 ≤ b.2) || decide (b.2 ≤ a.2)) = true := by
  intro a b
  simp only [Bool.or_eq_true, decide_eq_true_eq]
  exact le_total _ _

/-- C9 (counterexample): on a two-row frame — inside the regime where
numpy's argsort is insertion sort, hence stable, so the model reproduces
the program's actual output — two rows with equal importance scores come
out of `sort_values('importance', ascending=False)` in reversed original
order, because pandas reverses the ascending argsort; the claimed stable
behaviour (original order preserved among ties) is violated. -/
theorem sortValuesDesc_ties_reversed_cex :
    sortValuesDesc [("a", 1), ("b", 1)] = [("b", 1), ("a", 1)] ∧
    sortValuesDesc [("a", 1), ("b", 1)] ≠ [("a", 1), ("b", 1)] := by
  have h : sortValuesDesc [("a", (1 : ℚ)), ("b", 1)] = [("b", 1), ("a", 1)] := by
    simp [sortValuesDesc, List.mergeSort]
  refine ⟨h, ?_⟩
  rw [h]
  decide

/-- C9 (amended): the Explainer's sorted table is a permutation of its
input and its rows are in descending order of importance — the two
guarantees pandas gives for the default sort kind.  The claimed stability
(original order preserved among equal scores) is NOT a property of the
program: the counterexample shows a two-row tie emerging in reversed
order, and for larger frames the default quicksort leaves the tie order
unspecified. -/
theorem sortValuesDesc_spec (rows : List (String × ℚ)) :
    (sortValuesDesc rows).Perm rows ∧
    List.Pairwise (fun a b : String × ℚ => b.2 ≤ a.2) (sortValuesDesc rows) := by
  refine ⟨?_, ?_⟩
  · exact (List.reverse_perm _).trans (List.mergeSort_perm rows _)
  · rw [sortValuesDesc, List.pairwise_reverse]
    have h := @List.sorted_mergeSort (String × ℚ)
      (fun a b => decide (a.2 ≤ b.2)) leSnd_trans leSnd_total rows
    exact h.imp (by intro a b hh; simpa using hh)

/-- Invariant of the best-model fold of lines 73-98, generalized over the
running best `b`: the fold either keeps `b` (when nothing later strictly
exceeds it) or returns the first later entry that strictly exceeds `b` and
everything between. -/
lemma foldl_stepBest_spec (xs : List (String × ℚ)) (b : String × ℚ) :
    (xs.foldl stepBest (some b) = some b ∧ ∀ q ∈ xs, q.2 ≤ b.2) ∨
    (∃ l₁ c l₂, xs = l₁ ++ c :: l₂ ∧ xs.foldl stepBest (some b) = some c ∧
      b.2 < c.2 ∧ (∀ q ∈ l₁, q.2 < c.2) ∧ (∀ q ∈ xs, q.2 ≤ c.2)) := by
  induction xs generalizing b with
  | nil => exact .inl ⟨rfl, by simp⟩
  | cons x xs ih =>
    simp only [List.foldl_cons]
    by_cases hx : x.2 > b.2
    · have hstep : stepBest (some b) x = some x := by simp [stepBest, hx]
      rw [hstep]
      rcases ih x with ⟨heq, hbound⟩ | ⟨l₁, c, l₂, hsplit, heq, hgt, hl₁, hbound⟩
      · refine .inr ⟨[], x, xs, by simp, heq, hx, by simp, ?_⟩
        intro q hq
        rcases List.mem_cons.mp hq with rfl | hq
        · exact le_refl _
        · exact hbound q hq
      · refine .inr ⟨x :: l₁, c, l₂, by rw [hsplit]; rfl, heq, lt_trans hx hgt, ?_, ?_⟩
        · intro q hq
          rcases List.mem_cons.mp hq with rfl | hq
          · exact hgt
          · exact hl₁ q hq
        · intro q hq
          rcases List.mem_cons.mp hq with rfl | hq
          · exact le_of_lt hgt
          · exact hbound q hq
    · have hstep : stepBest (some b) x = some b := by simp [stepBest, hx]
      rw [hstep]
      push_neg at hx
      rcases ih b with ⟨heq, hbound⟩ | ⟨l₁, c, l₂, hsplit, heq, hgt, hl₁, hbound⟩
      · refine .inl ⟨heq, ?_⟩
        intro q hq
        rcases List.mem_cons.mp hq with rfl | hq
        · exact hx
        · exact hbound q hq
      · refine .inr ⟨x :: l₁, c, l₂, by rw [hsplit]; rfl, heq, hgt, ?_, ?_⟩
        · intro q hq
          rcases List.mem_cons.mp hq with rfl | hq
          · exact lt_of_le_of_lt hx hgt
          · exact hl₁ q hq
        · intro q hq
          rcases List.mem_cons.mp hq with rfl | hq
          · exact le_of_lt (lt_of_le_of_lt hx hgt)
          · exact hbound q hq

/-- C1: on every non-empty association list of per-candidate R² scores in
declared candidate order, the selection of lines 69-98 returns an entry `p`
that attains the maximum R², and every entry strictly before `p` in the
list has strictly smaller R² — so the first candidate in declared order
wins ties (the comparison against the current best is strict). -/
theorem selectBest_picks_first_max (l : List (String × ℚ)) (h : l ≠ []) :
    ∃ l₁ p l₂, l = l₁ ++ p :: l₂ ∧ selectBest l = some p ∧
      (∀ q ∈ l, q.2 ≤ p.2) ∧ (∀ q ∈ l₁, q.2 < p.2) := by
  match l, h with
  | x :: xs, _ =>
    have hsel : selectBest (x :: xs) = xs.foldl stepBest (some x) := rfl
    rcases foldl_stepBest_spec xs x with ⟨heq, hbound⟩ | ⟨l₁, c, l₂, hsplit, heq, hgt, hl₁, hbound⟩
    · refine ⟨[], x, xs, rfl, by rw [hsel, heq], ?_, by simp⟩
      intro q hq
      rcases List.mem_cons.mp hq with rfl | hq
      · exact le_refl _
      · exact hbound q hq
    · refine ⟨x :: l₁, c, l₂, by rw [hsplit]; rfl, by rw [hsel, heq], ?_, ?_⟩
      · intro q hq
        rcases List.mem_cons.mp hq with rfl | hq
        · exact le_of_lt hgt
        · exact hbound q hq
      · intro q hq
        rcases List.mem_cons.mp hq with rfl | hq
        · exact hgt
        · exact hl₁ q hq

/-- Two synthetic candidates forced to tie, in declared order. -/
def tieScores : List (String × ℚ) := [("Random Forest", 1/2), ("Gradient Boosting", 1/2)]

/-- Witness for the C1 theorem: on the concrete tie `tieScores`, the
selection picks the first-declared candidate. -/
theorem selectBest_picks_first_max_witness :
    selectBest tieScores = some ("Random Forest", 1/2) ∧
    (∃ l₁ p l₂, tieScores = l₁ ++ p :: l₂ ∧ selectBest tieScores = some p ∧
      (∀ q ∈ tieScores, q.2 ≤ p.2) ∧ (∀ q ∈ l₁, q.2 < p.2)) :=
  ⟨by norm_num [tieScores, selectBest, stepBest],
   selectBest_picks_first_max tieScores (by simp [tieScores])⟩

/-- The best model returned by `train_model` is exactly `selectBest`
applied to the per-candidate R² scores of its results, in iteration order
(the loop updates the best inside the same iteration that records the
result). -/
lemma train_model_best_eq (X : DF) (y : List Val) (r : ℕ)
    (cats nums : List String) (store : List CTState) :
    (train_model X y r cats nums store).best =
      selectBest ((train_model X y r cats nums store).results.map
        (fun e => (e.1, e.2.1.r2))) := rfl

/-- C4: the Trainer is deterministic: two runs of the full
training-and-evaluation function on identical input tables produce
identical outputs — the same train/test split (fixed 20% held-out fraction,
fixed seed 42) and the same MAE, MSE (hence RMSE) and R² for every
candidate.  Every source of randomness in the program is a fixed seed
(lines 48, 54, 60), so the embedded run is a pure function of the input. -/
theorem runTraining_deterministic (df1 df2 : DF) (h : df1 = df2) :
    runTraining df1 = runTraining df2 ∧
    (∀ p1 p2 : PreprocessOut, preprocess_data df1 = .ok p1 →
      preprocess_data df2 = .ok p2 →
      train_test_split p1.X p1.y 42 = train_test_split p2.X p2.y 42) := by
  subst h
  refine ⟨rfl, ?_⟩
  intro p1 p2 h1 h2
  rw [h1] at h2
  injection h2 with h2
  rw [h2]

/-- Witness for the C4 theorem: the two runs on the concrete table
`dfBoolCol` agree. -/
theorem runTraining_deterministic_witness :
    runTraining dfBoolCol = runTraining dfBoolCol ∧
    (∀ p1 p2 : PreprocessOut, preprocess_data dfBoolCol = .ok p1 →
      preprocess_data dfBoolCol = .ok p2 →
      train_test_split p1.X p1.y 42 = train_test_split p2.X p2.y 42) :=
  runTraining_deterministic dfBoolCol dfBoolCol rfl

/-- A concrete 5-row table with one categorical feature column. -/
def dfC5 : DF :=
  [⟨"color", .object, [.str "r", .str "g", .str "b", .str "r", .str "g"]⟩,
   ⟨"CarbonEmission", .float64, [.num 1, .num 2, .num 3, .num 4, .num 5]⟩]

/-- The training output of the full run on `dfC5`. -/
def runOutC5 : TrainOut :=
  (runTraining dfC5).toOption.getD ⟨none, [], [], [], []⟩

/-- C5 (counterexample): on the concrete table `dfC5`, the claim's reading
of the run is false.  If each candidate owned an independent preprocessing
plan instance that is fitted exactly once and never mutated afterwards,
the two fitted pipelines would reference distinct preprocessor objects and
the object referenced by the first-fitted candidate would carry exactly one
fit; in fact both pipelines reference the single object 0, and that object
has been written twice — the second candidate's fit overwrote it after the
first candidate was already fitted, leaving the last writer as
"Gradient Boosting". -/
theorem train_model_shared_preprocessor_cex :
    ¬((runOutC5.results.map (fun e => e.2.2.ctRef)).Nodup ∧
      (runOutC5.store.get? 0).map CTState.fitCount = some 1) ∧
    runOutC5.results.map (fun e => e.2.2.ctRef) = [0, 0] ∧
    (runOutC5.store.get? 0).map CTState.fitCount = some 2 ∧
    (runOutC5.store.get? 0).map CTState.fittedBy = some (some "Gradient Boosting") := by
  refine ⟨?_, by decide, by decide, by decide⟩
  intro hcontra
  have h1 : runOutC5.results.map (fun e => e.2.2.ctRef) = [0, 0] := by decide
  rw [h1] at hcontra
  exact absurd hcontra.1 (by decide)

/-- C5 (amended): in every run of `train_model`, both candidate pipelines
reference the one shared preprocessor object (object 0 of the store built
by `preprocess_data`); fitting the second candidate refits that object in
place, overwriting the state fitted by the first candidate; but the
overwritten encoder/scaler parameters are equal to those the first
candidate's own fit produced, because both candidates are fitted on the
identical training split. -/
theorem train_model_shared_preprocessor (X : DF) (y : List Val)
    (cats nums : List String) :
    (train_model X y 0 cats nums [initCT]).results.map (fun e => e.2.2.ctRef) = [0, 0] ∧
    (train_model X y 0 cats nums [initCT]).store =
      [fitCT (train_test_split X y 42).1 cats nums "Gradient Boosting"
        (fitCT (train_test_split X y 42).1 cats nums "Random Forest" initCT)] ∧
    (fitCT (train_test_split X y 42).1 cats nums "Gradient Boosting"
        (fitCT (train_test_split X y 42).1 cats nums "Random Forest" initCT)).fittedCats =
      (fitCT (train_test_split X y 42).1 cats nums "Random Forest" initCT).fittedCats ∧
    (fitCT (train_test_split X y 42).1 cats nums "Gradient Boosting"
        (fitCT (train_test_split X y 42).1 cats nums "Random Forest" initCT)).fittedNum =
      (fitCT (train_test_split X y 42).1 cats nums "Random Forest" initCT).fittedNum :=
  ⟨rfl, rfl, rfl, rfl⟩

/-- C10: for every run that reaches importance analysis, the preprocessor
object handed to the Explainer (`main`, line 166, passing the same object
both pipelines wrap) is the single shared object: both fitted pipelines
reference it, its state is the one written by the LAST candidate fitted in
iteration order — "Gradient Boosting" — and the categorical feature names
recovered from it coincide with the ones the selected candidate's own fit
observed, because every candidate is fitted on the same training split. -/
theorem explainer_reads_shared_preprocessor (df : DF) (p : PreprocessOut)
    (h : preprocess_data df = .ok p) :
    (train_model p.X p.y p.ctRef p.categorical_cols p.numerical_cols p.store).results.map
        (fun e => e.2.2.ctRef) = [p.ctRef, p.ctRef] ∧
    (((train_model p.X p.y p.ctRef p.categorical_cols p.numerical_cols p.store).store.get?
        p.ctRef).map CTState.fittedBy) = some (some "Gradient Boosting") ∧
    (((train_model p.X p.y p.ctRef p.categorical_cols p.numerical_cols p.store).store.get?
        p.ctRef).map CTState.fittedCats) =
      some (fitCT (train_test_split p.X p.y 42).1 p.categorical_cols p.numerical_cols
        "Gradient Boosting" initCT).fittedCats ∧
    (fitCT (train_test_split p.X p.y 42).1 p.categorical_cols p.numerical_cols
        "Gradient Boosting" initCT).fittedCats =
      (fitCT (train_test_split p.X p.y 42).1 p.categorical_cols p.numerical_cols
        "Random Forest" initCT).fittedCats := by
  unfold preprocess_data at h
  split at h
  · injection h with h
    subst h
    exact ⟨rfl, rfl, rfl, rfl⟩
  · cases h

/-- The preprocessing output of the concrete table `dfC5`. -/
def pC5 : PreprocessOut :=
  (preprocess_data dfC5).toOption.getD ⟨[], [], 0, [], [], []⟩

/-- Witness for the C10 theorem at the concrete table `dfC5`. -/
theorem explainer_reads_shared_preprocessor_witness :
    (train_model pC5.X pC5.y pC5.ctRef pC5.categorical_cols pC5.numerical_cols pC5.store).results.map
        (fun e => e.2.2.ctRef) = [pC5.ctRef, pC5.ctRef] ∧
    (((train_model pC5.X pC5.y pC5.ctRef pC5.categorical_cols pC5.numerical_cols pC5.store).store.get?
        pC5.ctRef).map CTState.fittedBy) = some (some "Gradient Boosting") ∧
    (((train_model pC5.X pC5.y pC5.ctRef pC5.categorical_cols pC5.numerical_cols pC5.store).store.get?
        pC5.ctRef).map CTState.fittedCats) =
      some (fitCT (train_test_split pC5.X pC5.y 42).1 pC5.categorical_cols pC5.numerical_cols
        "Gradient Boosting" initCT).fittedCats ∧
    (fitCT (train_test_split pC5.X pC5.y 42).1 pC5.categorical_cols pC5.numerical_cols
        "Gradient Boosting" initCT).fittedCats =
      (fitCT (train_test_split pC5.X pC5.y 42).1 pC5.categorical_cols pC5.numerical_cols
        "Random Forest" initCT).fittedCats :=
  explainer_reads_shared_preprocessor dfC5 pC5 rfl
